import Mathlib

/-!
Verification of the service-entry-pipeline orchestration core.

This file is a shallow embedding of the orchestration logic of the
repository: the date-window calculator (compute_dates in
reformatting_test.py and datetest.py), the due-today decider, the
output tracker (FileManager in run.py), the run guard, and the
orchestrator (ServiceEntryRunner.run in run.py).

Filesystem state is modelled as a partial map from path strings to file
contents; external collaborators (the Oracle query, SMTP transport) are
modelled as parameters: the query result is an abstract data frame, the
database connection is a boolean availability flag, and sending an email
appends a message record to the state.
-/

/-- Content status of a file on disk: a file that is still being written
is incomplete, a fully written file is complete. -/
inductive FileData where
  | incomplete
  | complete
deriving DecidableEq, Repr

/-- A filesystem: a map from path strings to the content status of the
file at that path, or none when no file exists there. -/
def FS : Type := String → Option FileData

/-- Writing a file at a path (open(...,"w") / df.to_csv). -/
def fsWrite (fs : FS) (p : String) (v : FileData) : FS :=
  fun q => if q = p then some v else fs q

/-- Removing a file at a path (os.remove), also the removal half of
os.replace. -/
def fsRemove (fs : FS) (p : String) : FS :=
  fun q => if q = p then none else fs q

/-- Existence test for a path (os.path.exists). -/
def fsExists (fs : FS) (p : String) : Bool :=
  (fs p).isSome

/-- Calendar date, mirroring datetime.date: year, month (1..12) and
day (1..daysInMonth). -/
structure Date where
  year : Nat
  month : Nat
  day : Nat
deriving DecidableEq, Repr

/-- Datetime at second resolution: a date plus seconds past local
midnight. A value with secs = 0 is a midnight datetime. -/
structure DateTime where
  date : Date
  secs : Nat
deriving DecidableEq, Repr

/-- Gregorian leap-year test. -/
def isLeap (y : Nat) : Bool :=
  (y % 4 == 0 && y % 100 != 0) || y % 400 == 0

/-- Number of days in a month of a given year. -/
def daysInMonth (y m : Nat) : Nat :=
  if m = 2 then (if isLeap y then 29 else 28)
  else if m = 4 ∨ m = 6 ∨ m = 9 ∨ m = 11 then 30
  else 31

/-- The structural well-formedness of a date: month in 1..12 and day in
1..daysInMonth. -/
def ValidDate (d : Date) : Prop :=
  1 ≤ d.month ∧ d.month ≤ 12 ∧ 1 ≤ d.day ∧ d.day ≤ daysInMonth d.year d.month

instance (d : Date) : Decidable (ValidDate d) := by
  unfold ValidDate; infer_instance

/-- Calendar predecessor of a date, the effect of subtracting
timedelta(days=1) from a datetime.date. -/
def Date.pred (d : Date) : Date :=
  if 1 < d.day then ⟨d.year, d.month, d.day - 1⟩
  else if 1 < d.month then ⟨d.year, d.month - 1, daysInMonth d.year (d.month - 1)⟩
  else ⟨d.year - 1, 12, 31⟩

/-- Calendar successor of a date, the effect of adding timedelta(days=1)
to a datetime.date. -/
def Date.succ (d : Date) : Date :=
  if d.day < daysInMonth d.year d.month then ⟨d.year, d.month, d.day + 1⟩
  else if d.month < 12 then ⟨d.year, d.month + 1, 1⟩
  else ⟨d.year + 1, 1, 1⟩

/-- Iterated calendar predecessor. -/
def Date.predN : Nat → Date → Date
  | 0, d => d
  | n + 1, d => Date.predN n d.pred

/-- Iterated calendar successor. -/
def Date.succN : Nat → Date → Date
  | 0, d => d
  | n + 1, d => Date.succN n d.succ

/-- Subtracting timedelta(days=n) from a datetime: the date moves back n
calendar days, the time of day is unchanged. -/
def DateTime.subDays (t : DateTime) (n : Nat) : DateTime :=
  ⟨Date.predN n t.date, t.secs⟩

/-- Adding timedelta(days=n) to a datetime. -/
def DateTime.addDays (t : DateTime) (n : Nat) : DateTime :=
  ⟨Date.succN n t.date, t.secs⟩

/-- Chronological strict order on dates (lexicographic on year, month,
day; agrees with the timeline ordering on valid dates). -/
def Date.lt (a b : Date) : Prop :=
  a.year < b.year ∨ (a.year = b.year ∧
    (a.month < b.month ∨ (a.month = b.month ∧ a.day < b.day)))

instance (a b : Date) : Decidable (Date.lt a b) := by
  unfold Date.lt; infer_instance

/-- Chronological strict order on datetimes. -/
def DateTime.lt (a b : DateTime) : Prop :=
  Date.lt a.date b.date ∨ (a.date = b.date ∧ a.secs < b.secs)

instance (a b : DateTime) : Decidable (DateTime.lt a b) := by
  unfold DateTime.lt; infer_instance

/-- Day count of a date in the proleptic Gregorian calendar (the civil
day-number algorithm used by the platform date library), shifted so the
count is a natural number for all years of interest. -/
def Date.rataDie (d : Date) : Nat :=
  let y := if d.month ≤ 2 then d.year - 1 else d.year
  let era := y / 400
  let yoe := y - era * 400
  let mp := if d.month ≤ 2 then d.month + 9 else d.month - 3
  let doy := (153 * mp + 2) / 5 + (d.day - 1)
  let doe := yoe * 365 + yoe / 4 - yoe / 100 + doy
  era * 146097 + doe

/-- Day of week with Monday = 0 .. Sunday = 6, the convention of
datetime.date.weekday() in Python. -/
def Date.weekday (d : Date) : Nat :=
  (d.rataDie + 2) % 7

/-- Decimal digit character for the units digit of a natural number. -/
def digitChar (n : Nat) : Char :=
  if n % 10 = 0 then '0'
  else if n % 10 = 1 then '1'
  else if n % 10 = 2 then '2'
  else if n % 10 = 3 then '3'
  else if n % 10 = 4 then '4'
  else if n % 10 = 5 then '5'
  else if n % 10 = 6 then '6'
  else if n % 10 = 7 then '7'
  else if n % 10 = 8 then '8'
  else '9'

/-- Two-digit zero-padded decimal rendering (the %m / %d fields of
strftime). -/
def pad2 (n : Nat) : String :=
  ⟨[digitChar (n / 10), digitChar n]⟩

/-- Four-digit zero-padded decimal rendering (the %Y field of
strftime). -/
def pad4 (n : Nat) : String :=
  ⟨[digitChar (n / 1000), digitChar (n / 100), digitChar (n / 10), digitChar n]⟩

/-- strftime("%Y%m%d") on a date: eight decimal digits. -/
def strftimeYmd (d : Date) : String :=
  pad4 d.year ++ pad2 d.month ++ pad2 d.day

/-- ASCII upper-casing of one character, as str.upper() acts on the
ASCII range. -/
def upperChar (c : Char) : Char :=
  if 'a' ≤ c ∧ c ≤ 'z' then Char.ofNat (c.toNat - 32) else c

/-- str.upper() over a string. -/
def strUpper (s : String) : String :=
  ⟨s.data.map upperChar⟩

/-- Three-letter English month abbreviation (the %b field of strftime). -/
def monthAbbrev : Nat → String
  | 1 => "Jan"
  | 2 => "Feb"
  | 3 => "Mar"
  | 4 => "Apr"
  | 5 => "May"
  | 6 => "Jun"
  | 7 => "Jul"
  | 8 => "Aug"
  | 9 => "Sep"
  | 10 => "Oct"
  | 11 => "Nov"
  | 12 => "Dec"
  | _ => ""

/-- strftime("%d %b %Y") on a date. -/
def fmtDmy (d : Date) : String :=
  pad2 d.day ++ " " ++ monthAbbrev d.month ++ " " ++ pad4 d.year

/-- The window description placed in an email section, the f-string
interpolation of the two window endpoints. -/
def fmtWindow (a b : DateTime) : String :=
  fmtDmy a.date ++ " → " ++ fmtDmy b.date

/-- os.path.join of a directory and one further component. -/
def pjoin (a b : String) : String :=
  a ++ "/" ++ b

/-- Configuration assembled by EnvConfig.__init__ in run.py: the
installation root directory, today's date, and the configured
YEAR_START_MONTH. The derived paths and the date string are functions of
these fields, as they are in __init__. -/
structure EnvConfig where
  root : String
  today : Date
  year_start_month : Nat

/-- today.strftime("%Y%m%d") stored as self.today_string. -/
def EnvConfig.today_string (cfg : EnvConfig) : String :=
  strftimeYmd cfg.today

/-- os.path.join(self.root, "output"), stored as self.output. -/
def EnvConfig.output (cfg : EnvConfig) : String :=
  pjoin cfg.root "output"

/-- os.path.join(self.root, "ses.lock"), stored as self.lock_file. -/
def EnvConfig.lock_file (cfg : EnvConfig) : String :=
  pjoin cfg.root "ses.lock"

/-- Abstract result of one database query: pd.read_sql_query returns a
data frame of which the orchestration core only observes the row count. -/
structure DataFrame where
  rows : Nat
deriving DecidableEq, Repr

namespace FileManager

/-- FileManager.base_dir: os.path.join(self.cfg.output, sub). The
os.makedirs side effect creates a directory and is invisible to the
file-existence model. -/
def base_dir (cfg : EnvConfig) (sub : String) : String :=
  pjoin cfg.output sub

/-- FileManager.file_path: the final CSV path for a category on today's
date. -/
def file_path (cfg : EnvConfig) (sub suffix : String) : String :=
  pjoin (base_dir cfg sub)
    (cfg.today_string ++ "_QH_ServiceEntry_" ++ strUpper suffix ++ ".csv")

/-- FileManager.temp_path: the temporary CSV path used for the atomic
write. -/
def temp_path (cfg : EnvConfig) (sub suffix : String) : String :=
  pjoin (base_dir cfg sub)
    ("_" ++ cfg.today_string ++ "_tmp_QH_ServiceEntry_" ++ strUpper suffix ++ ".csv")

/-- FileManager.done_marker: the sentinel marker path for a category on
today's date. -/
def done_marker (cfg : EnvConfig) (sub suffix : String) : String :=
  pjoin (base_dir cfg sub)
    ("_DONE_" ++ cfg.today_string ++ "_" ++ strUpper suffix ++ ".txt")

/-- FileManager.should_skip: the category is already produced today when
either the final CSV or the done marker exists. -/
def should_skip (cfg : EnvConfig) (fs : FS) (sub suffix : String) : Bool :=
  fsExists fs (file_path cfg sub suffix) || fsExists fs (done_marker cfg sub suffix)

/-- FileManager.write_csv as a filesystem transformer: write the data to
the temp path, os.replace it onto the final path, then write the done
marker; the returned string is the final path. -/
def write_csv (cfg : EnvConfig) (fs : FS) (sub suffix : String) : FS × String :=
  let temp := temp_path cfg sub suffix
  let final := file_path cfg sub suffix
  let fs1 := fsWrite fs temp .complete
  let fs2 := fsWrite (fsRemove fs1 temp) final .complete
  let fs3 := fsWrite fs2 (done_marker cfg sub suffix) .complete
  (fs3, final)

/-- The sequence of filesystem states passed through by one execution of
FileManager.write_csv, including the state in the middle of the temp-file
write: initial state, temp partially written, temp fully written, after
os.replace, after the done-marker write. A crash at any point leaves the
filesystem in one of these states. -/
def write_csv_trace (cfg : EnvConfig) (fs : FS) (sub suffix : String) : List FS :=
  let temp := temp_path cfg sub suffix
  let final := file_path cfg sub suffix
  let fs1 := fsWrite fs temp .complete
  let fs2 := fsWrite (fsRemove fs1 temp) final .complete
  let fs3 := fsWrite fs2 (done_marker cfg sub suffix) .complete
  [fs, fsWrite fs temp .incomplete, fs1, fs2, fs3]

end FileManager

namespace reformatting_test

/-- compute_dates from reformatting_test.py: the half-open window at
local midnight for the given mode string, or none when the code raises
ValueError("Invalid mode..."). The reference datetime stands for
datetime.now(). -/
def compute_dates (mode : String) (now : DateTime) : Option (DateTime × DateTime) :=
  let midnight_today : DateTime := ⟨now.date, 0⟩
  let m := strUpper mode
  if m = "DAILY" then
    some (midnight_today, midnight_today.addDays 1)
  else if m = "WEEKLY" then
    some (midnight_today.subDays 7, midnight_today)
  else if m = "MONTHLY" then
    let first_of_this_month : DateTime :=
      ⟨⟨midnight_today.date.year, midnight_today.date.month, 1⟩, midnight_today.secs⟩
    let last_month_end := first_of_this_month.subDays 1
    some (⟨⟨last_month_end.date.year, last_month_end.date.month, 1⟩, last_month_end.secs⟩,
      first_of_this_month)
  else if m = "MONTHLY_MTD" then
    some (⟨⟨midnight_today.date.year, midnight_today.date.month, 1⟩, midnight_today.secs⟩,
      midnight_today.addDays 1)
  else none

end reformatting_test

namespace datetest

/-- compute_dates from datetest.py: as the reformatting_test version but
with no MONTHLY_MTD mode. -/
def compute_dates (mode : String) (now : DateTime) : Option (DateTime × DateTime) :=
  let midnight_today : DateTime := ⟨now.date, 0⟩
  if strUpper mode = "DAILY" then
    some (midnight_today, midnight_today.addDays 1)
  else if strUpper mode = "WEEKLY" then
    some (midnight_today.subDays 7, midnight_today)
  else if strUpper mode = "MONTHLY" then
    let first_of_this_month : DateTime :=
      ⟨⟨midnight_today.date.year, midnight_today.date.month, 1⟩, midnight_today.secs⟩
    let last_month_end := first_of_this_month.subDays 1
    some (⟨⟨last_month_end.date.year, last_month_end.date.month, 1⟩, last_month_end.secs⟩,
      first_of_this_month)
  else none

end datetest

/-- One email section: the dict {"title": ..., "window": ..., "rows": ...}
appended per produced artifact in ServiceEntryRunner.run. -/
structure ReportSection where
  title : String
  window : String
  rows : Nat
deriving DecidableEq, Repr

/-- One sent email, as composed and handed to EmailClient.send: the
subject line, the sections the bodies were built from, and the attachment
paths. -/
structure EmailMsg where
  subject : String
  sections : List ReportSection
  attachments : List String
deriving DecidableEq, Repr

/-- Observable system state across runs: the filesystem and the list of
emails that have been sent. -/
structure SysState where
  fs : FS
  emails : List EmailMsg

/-- How one call of ServiceEntryRunner.run ended. connFailed is the path
where OracleClient.connect raises and the exception propagates out of
run. -/
inductive Outcome where
  | lockedNoop
  | nothingDue
  | connFailed
  | nothingNew
  | sentReport
deriving DecidableEq, Repr

/-- Per-run observables: how the run ended, whether a database connection
was attempted, and the attachments and sections produced in this run. -/
structure RunResult where
  outcome : Outcome
  dbConnected : Bool
  attachments : List String
  sections : List ReportSection

namespace ServiceEntryRunner

/-- ServiceEntryRunner.what_is_due: weekly is due on Mondays
(weekday() == 0), monthly on the 1st of the month. -/
def what_is_due (today : Date) : Bool × Bool :=
  (today.weekday == 0, today.day == 1)

/-- ServiceEntryRunner.weekly_window: end is midnight of today, start is
seven days earlier. -/
def weekly_window (today : Date) : DateTime × DateTime :=
  let e : DateTime := ⟨today, 0⟩
  (e.subDays 7, e)

/-- ServiceEntryRunner.monthly_window: start is midnight of the first of
the configured year-start month in today's calendar year, end is midnight
of today. -/
def monthly_window (cfg : EnvConfig) : DateTime × DateTime :=
  (⟨⟨cfg.today.year, cfg.year_start_month, 1⟩, 0⟩, ⟨cfg.today, 0⟩)

/-- The label (today.replace(day=1) - timedelta(days=1)).strftime("%b %Y")
used in the monthly section title. -/
def prev_label (today : Date) : String :=
  let pm := Date.pred ⟨today.year, today.month, 1⟩
  monthAbbrev pm.month ++ " " ++ pad4 pm.year

/-- One due-category block of ServiceEntryRunner.run: when the category
is due and not already produced, query (the data frame is the abstract
query result), write the CSV atomically, and contribute one attachment
and one section; otherwise leave everything unchanged. -/
def process_category (cfg : EnvConfig) (due : Bool) (sub suffix : String)
    (df : DataFrame) (title window : String) (fs : FS) :
    FS × List String × List ReportSection :=
  if due && !(FileManager.should_skip cfg fs sub suffix) then
    let r := FileManager.write_csv cfg fs sub suffix
    (r.1, [r.2], [⟨title, window, df.rows⟩])
  else
    (fs, [], [])

/-- ServiceEntryRunner.run. dbOk tells whether OracleClient.connect
succeeds; dfW and dfM are the query results for the weekly and monthly
windows. On the connFailed path the exception propagates with the lock
file still on disk, exactly as in the source, which has no try/finally
around the body. -/
def run (cfg : EnvConfig) (dbOk : Bool) (dfW dfM : DataFrame) (s : SysState) :
    RunResult × SysState :=
  if fsExists s.fs cfg.lock_file then
    (⟨.lockedNoop, false, [], []⟩, s)
  else
    let fs := fsWrite s.fs cfg.lock_file .complete
    let wd := what_is_due cfg.today
    if !wd.1 && !wd.2 then
      (⟨.nothingDue, false, [], []⟩, ⟨fsRemove fs cfg.lock_file, s.emails⟩)
    else if !dbOk then
      (⟨.connFailed, true, [], []⟩, ⟨fs, s.emails⟩)
    else
      let ww := weekly_window cfg.today
      let pw := process_category cfg wd.1 "weekly" "WEEKLY" dfW
        "Weekly" (fmtWindow ww.1 ww.2) fs
      let mw := monthly_window cfg
      let pm := process_category cfg wd.2 "monthly" "MONTHLY" dfM
        ("Monthly (YTD through " ++ prev_label cfg.today ++ ")")
        (fmtWindow mw.1 mw.2) pw.1
      let attachments := pw.2.1 ++ pm.2.1
      let sections := pw.2.2 ++ pm.2.2
      if attachments = [] then
        (⟨.nothingNew, true, [], []⟩, ⟨fsRemove pm.1 cfg.lock_file, s.emails⟩)
      else
        let subject := "Service Entry Sheet Report" ++
          (if wd.1 && wd.2 then " — Weekly & Monthly"
           else if wd.1 then " — Weekly"
           else if wd.2 then " — Monthly"
           else "")
        let emails := s.emails ++ [⟨subject, sections, attachments⟩]
        let finalFs :=
          if fsExists pm.1 cfg.lock_file then fsRemove pm.1 cfg.lock_file else pm.1
        (⟨.sentReport, true, attachments, sections⟩, ⟨finalFs, emails⟩)

end ServiceEntryRunner

/-- Modelled from the spec: the first day of the month preceding the
reference date's month, the start the spec prescribes for the MONTHLY
window. Used only to compare the source's MONTHLY computation against the
spec's wording. -/
def priorMonthFirst (d : Date) : Date :=
  if d.month = 1 then ⟨d.year - 1, 12, 1⟩ else ⟨d.year, d.month - 1, 1⟩

/-- Example configuration: 2025-12-01 is both a Monday and the 1st of the
month; the year-start month is January as in the default configuration. -/
def cfgEx : EnvConfig :=
  ⟨"", ⟨2025, 12, 1⟩, 1⟩

/-- The empty filesystem. -/
def fsEmpty : FS := fun _ => none

/-- A clean starting state: no files, no emails sent. -/
def sEmpty : SysState := ⟨fsEmpty, []⟩

/-- A filesystem holding only the lock marker of a configuration. -/
def fsLocked (cfg : EnvConfig) : FS :=
  fun q => if q = cfg.lock_file then some .complete else none

/-- A filesystem in which the weekly category is already recorded done
for today, and nothing else exists. -/
def fsWeeklyDone (cfg : EnvConfig) : FS :=
  fun q => if q = FileManager.done_marker cfg "weekly" "WEEKLY" then some .complete else none

/-- A starting state holding only the lock marker. -/
def sLocked (cfg : EnvConfig) : SysState := ⟨fsLocked cfg, []⟩

/-- An example query result. -/
def dfEx : DataFrame := ⟨5⟩

@[simp]
lemma fsWrite_same (fs : FS) (p : String) (v : FileData) : fsWrite fs p v p = some v := by
  simp [fsWrite]

lemma fsWrite_other (fs : FS) (p : String) (v : FileData) {q : String} (h : q ≠ p) :
    fsWrite fs p v q = fs q := by
  simp [fsWrite, h]

@[simp]
lemma fsRemove_same (fs : FS) (p : String) : fsRemove fs p p = none := by
  simp [fsRemove]

lemma fsRemove_other (fs : FS) (p : String) {q : String} (h : q ≠ p) :
    fsRemove fs p q = fs q := by
  simp [fsRemove, h]

lemma fsRemove_fsWrite_cancel (fs : FS) (p : String) (v : FileData) (h : fs p = none) :
    fsRemove (fsWrite fs p v) p = fs := by
  funext q
  by_cases hq : q = p
  · subst hq; simp [h]
  · rw [fsRemove_other _ _ hq, fsWrite_other _ _ _ hq]

lemma Date.lt_trans {a b c : Date} (h1 : Date.lt a b) (h2 : Date.lt b c) : Date.lt a c := by
  unfold Date.lt at *
  omega

lemma Date.lt_irrefl (a : Date) : ¬ Date.lt a a := by
  unfold Date.lt
  omega

lemma daysInMonth_pos (y m : Nat) : 1 ≤ daysInMonth y m := by
  unfold daysInMonth
  split_ifs <;> omega

lemma daysInMonth_twelve (y : Nat) : daysInMonth y 12 = 31 := by
  simp [daysInMonth]

lemma Date.pred_lt (d : Date) (h : 1 ≤ d.year ∨ 1 < d.day ∨ 1 < d.month) :
    Date.lt d.pred d := by
  unfold Date.pred Date.lt
  split_ifs <;> simp_all <;> omega

lemma Date.lt_succ (d : Date) : Date.lt d d.succ := by
  unfold Date.succ Date.lt
  split_ifs <;> simp <;> omega

lemma Date.pred_eq_of_day (d : Date) (h : 1 < d.day) :
    d.pred = ⟨d.year, d.month, d.day - 1⟩ := by
  simp [Date.pred, h]

lemma Date.pred_eq_of_month (d : Date) (h1 : ¬ 1 < d.day) (h2 : 1 < d.month) :
    d.pred = ⟨d.year, d.month - 1, daysInMonth d.year (d.month - 1)⟩ := by
  simp [Date.pred, h1, h2]

lemma Date.pred_eq_else (d : Date) (h1 : ¬ 1 < d.day) (h2 : ¬ 1 < d.month) :
    d.pred = ⟨d.year - 1, 12, 31⟩ := by
  simp [Date.pred, h1, h2]

lemma Date.predN_lt (n : Nat) : ∀ d : Date, ValidDate d →
    (1 ≤ d.year ∨ (d.month = 12 ∧ n + 1 ≤ d.day)) → n + 1 ≤ 28 →
    Date.lt (Date.predN (n + 1) d) d := by
  induction n with
  | zero =>
    intro d _ h _
    exact Date.pred_lt d (by omega)
  | succ n ih =>
    intro d hv h hn
    obtain ⟨h1, h2, h3, h4⟩ := hv
    have hpl : Date.lt d.pred d := Date.pred_lt d (by omega)
    have hstep : Date.lt (Date.predN (n + 1) d.pred) d.pred := by
      by_cases c1 : 1 < d.day
      · rw [Date.pred_eq_of_day d c1]
        refine ih _ ?_ ?_ (by omega)
        · simp only [ValidDate]
          omega
        · dsimp only
          omega
      · by_cases c2 : 1 < d.month
        · rw [Date.pred_eq_of_month d c1 c2]
          have hp := daysInMonth_pos d.year (d.month - 1)
          refine ih _ ?_ ?_ (by omega)
          · simp only [ValidDate]
            omega
          · dsimp only
            omega
        · rw [Date.pred_eq_else d c1 c2]
          have ht := daysInMonth_twelve (d.year - 1)
          refine ih _ ?_ ?_ (by omega)
          · simp only [ValidDate]
            omega
          · dsimp only
            omega
    exact Date.lt_trans hstep hpl

lemma Date.subDays7_lt (d : Date) (hv : ValidDate d) (hy : 1 ≤ d.year) :
    Date.lt (Date.predN 7 d) d := by
  have := Date.predN_lt 6 d hv (Or.inl hy) (by omega)
  simpa using this

lemma digitChar_ne_underscore (n : Nat) : digitChar n ≠ '_' := by
  unfold digitChar
  split_ifs <;> decide

lemma digitChar_ne_D (n : Nat) : digitChar n ≠ 'D' := by
  unfold digitChar
  split_ifs <;> decide

lemma cons_head_ne {a b : Char} {l1 l2 : List Char} (h : a ≠ b) : a :: l1 ≠ b :: l2 := by
  intro hh
  injection hh with h1 _
  exact h h1

lemma pjoin_ne_of_data_ne (B : String) {n1 n2 : String} (h : n1.data ≠ n2.data) :
    pjoin B n1 ≠ pjoin B n2 := by
  intro he
  apply h
  have hd := congrArg String.data he
  rw [pjoin, pjoin, String.data_append, String.data_append, String.data_append,
    String.data_append, List.append_assoc, List.append_assoc] at hd
  exact List.append_cancel_left (List.append_cancel_left hd)

lemma str_ext {a b : String} (h : a.data = b.data) : a = b := by
  cases a
  cases b
  exact congrArg String.mk (by simpa using h)

lemma pjoin_inj_right {a b c : String} (h : pjoin a b = pjoin a c) : b = c := by
  by_contra hne
  exact pjoin_ne_of_data_ne a (fun hdd => hne (str_ext hdd)) h

lemma pjoin_pjoin (a b c : String) : pjoin (pjoin a b) c = pjoin a (b ++ "/" ++ c) := by
  simp [pjoin, String.append_assoc]

lemma base_dir_as_pjoin (cfg : EnvConfig) (sub : String) :
    FileManager.base_dir cfg sub = pjoin cfg.root ("output" ++ "/" ++ sub) := by
  rw [FileManager.base_dir, EnvConfig.output, pjoin_pjoin]

lemma sub_path_as_pjoin (cfg : EnvConfig) (sub name : String) :
    pjoin (FileManager.base_dir cfg sub) name =
      pjoin cfg.root (("output" ++ "/" ++ sub) ++ "/" ++ name) := by
  rw [base_dir_as_pjoin, pjoin_pjoin]

lemma lock_ne_sub_path (cfg : EnvConfig) (sub name : String) :
    cfg.lock_file ≠ pjoin (FileManager.base_dir cfg sub) name := by
  intro h
  rw [EnvConfig.lock_file, sub_path_as_pjoin] at h
  have h2 := congrArg String.data (pjoin_inj_right h)
  have e1 : ("ses.lock" : String).data[0]? = some 's' := rfl
  have e2 : ((("output" ++ "/" ++ sub) ++ "/" ++ name) : String).data[0]? = some 'o' := rfl
  rw [congrArg (fun l => l[0]?) h2, e2] at e1
  exact absurd (Option.some.inj e1) (by decide)

lemma weekly_ne_monthly_path (cfg : EnvConfig) (n1 n2 : String) :
    pjoin (FileManager.base_dir cfg "weekly") n1 ≠
      pjoin (FileManager.base_dir cfg "monthly") n2 := by
  intro h
  rw [sub_path_as_pjoin, sub_path_as_pjoin] at h
  have h2 := congrArg String.data (pjoin_inj_right h)
  have e1 : ((("output" ++ "/" ++ "weekly") ++ "/" ++ n1) : String).data[7]? = some 'w' := rfl
  have e2 : ((("output" ++ "/" ++ "monthly") ++ "/" ++ n2) : String).data[7]? = some 'm' := rfl
  rw [congrArg (fun l => l[7]?) h2, e2] at e1
  exact absurd (Option.some.inj e1) (by decide)

lemma temp_name_ne_file_name (cfg : EnvConfig) (suffix : String) :
    ("_" ++ cfg.today_string ++ "_tmp_QH_ServiceEntry_" ++ strUpper suffix ++ ".csv") ≠
      (cfg.today_string ++ "_QH_ServiceEntry_" ++ strUpper suffix ++ ".csv") := by
  intro h
  have h2 := congrArg String.data h
  have e1 : ("_" ++ cfg.today_string ++ "_tmp_QH_ServiceEntry_" ++ strUpper suffix ++
      ".csv").data[0]? = some '_' := rfl
  have e2 : (cfg.today_string ++ "_QH_ServiceEntry_" ++ strUpper suffix ++
      ".csv").data[0]? = some (digitChar (cfg.today.year / 1000)) := rfl
  rw [congrArg (fun l => l[0]?) h2, e2] at e1
  exact digitChar_ne_underscore _ (Option.some.inj e1)

lemma marker_name_ne_file_name (cfg : EnvConfig) (s1 s2 : String) :
    ("_DONE_" ++ cfg.today_string ++ "_" ++ strUpper s1 ++ ".txt") ≠
      (cfg.today_string ++ "_QH_ServiceEntry_" ++ strUpper s2 ++ ".csv") := by
  intro h
  have h2 := congrArg String.data h
  have e1 : ("_DONE_" ++ cfg.today_string ++ "_" ++ strUpper s1 ++
      ".txt").data[0]? = some '_' := rfl
  have e2 : (cfg.today_string ++ "_QH_ServiceEntry_" ++ strUpper s2 ++
      ".csv").data[0]? = some (digitChar (cfg.today.year / 1000)) := rfl
  rw [congrArg (fun l => l[0]?) h2, e2] at e1
  exact digitChar_ne_underscore _ (Option.some.inj e1)

lemma temp_name_ne_marker_name (cfg : EnvConfig) (s1 s2 : String) :
    ("_" ++ cfg.today_string ++ "_tmp_QH_ServiceEntry_" ++ strUpper s1 ++ ".csv") ≠
      ("_DONE_" ++ cfg.today_string ++ "_" ++ strUpper s2 ++ ".txt") := by
  intro h
  have h2 := congrArg String.data h
  have e1 : ("_" ++ cfg.today_string ++ "_tmp_QH_ServiceEntry_" ++ strUpper s1 ++
      ".csv").data[1]? = some (digitChar (cfg.today.year / 1000)) := rfl
  have e2 : ("_DONE_" ++ cfg.today_string ++ "_" ++ strUpper s2 ++
      ".txt").data[1]? = some 'D' := rfl
  rw [congrArg (fun l => l[1]?) h2, e2] at e1
  exact digitChar_ne_D _ (Option.some.inj e1).symm

lemma temp_ne_file (cfg : EnvConfig) (sub suffix : String) :
    FileManager.temp_path cfg sub suffix ≠ FileManager.file_path cfg sub suffix := by
  rw [FileManager.temp_path, FileManager.file_path]
  intro h
  exact temp_name_ne_file_name cfg suffix (pjoin_inj_right h)

lemma marker_ne_file (cfg : EnvConfig) (sub suffix : String) :
    FileManager.done_marker cfg sub suffix ≠ FileManager.file_path cfg sub suffix := by
  rw [FileManager.done_marker, FileManager.file_path]
  intro h
  exact marker_name_ne_file_name cfg suffix suffix (pjoin_inj_right h)

lemma temp_ne_marker (cfg : EnvConfig) (sub suffix : String) :
    FileManager.temp_path cfg sub suffix ≠ FileManager.done_marker cfg sub suffix := by
  rw [FileManager.temp_path, FileManager.done_marker]
  intro h
  exact temp_name_ne_marker_name cfg suffix suffix (pjoin_inj_right h)

lemma lock_ne_file (cfg : EnvConfig) (sub suffix : String) :
    cfg.lock_file ≠ FileManager.file_path cfg sub suffix := by
  rw [FileManager.file_path]
  exact lock_ne_sub_path cfg sub _

lemma lock_ne_temp (cfg : EnvConfig) (sub suffix : String) :
    cfg.lock_file ≠ FileManager.temp_path cfg sub suffix := by
  rw [FileManager.temp_path]
  exact lock_ne_sub_path cfg sub _

lemma lock_ne_marker (cfg : EnvConfig) (sub suffix : String) :
    cfg.lock_file ≠ FileManager.done_marker cfg sub suffix := by
  rw [FileManager.done_marker]
  exact lock_ne_sub_path cfg sub _

lemma should_skip_congr (cfg : EnvConfig) {fs1 fs2 : FS} (sub suffix : String)
    (h1 : fs1 (FileManager.file_path cfg sub suffix) = fs2 (FileManager.file_path cfg sub suffix))
    (h2 : fs1 (FileManager.done_marker cfg sub suffix) = fs2 (FileManager.done_marker cfg sub suffix)) :
    FileManager.should_skip cfg fs1 sub suffix = FileManager.should_skip cfg fs2 sub suffix := by
  unfold FileManager.should_skip fsExists
  rw [h1, h2]

lemma write_csv_final (cfg : EnvConfig) (fs : FS) (sub suffix : String) :
    (FileManager.write_csv cfg fs sub suffix).1 (FileManager.file_path cfg sub suffix) =
      some .complete := by
  unfold FileManager.write_csv
  dsimp only
  rw [fsWrite_other _ _ _ (Ne.symm (marker_ne_file cfg sub suffix)), fsWrite_same]

lemma write_csv_marker (cfg : EnvConfig) (fs : FS) (sub suffix : String) :
    (FileManager.write_csv cfg fs sub suffix).1 (FileManager.done_marker cfg sub suffix) =
      some .complete := by
  unfold FileManager.write_csv
  dsimp only
  rw [fsWrite_same]

lemma write_csv_frame (cfg : EnvConfig) (fs : FS) (sub suffix : String) {p : String}
    (h1 : p ≠ FileManager.temp_path cfg sub suffix)
    (h2 : p ≠ FileManager.file_path cfg sub suffix)
    (h3 : p ≠ FileManager.done_marker cfg sub suffix) :
    (FileManager.write_csv cfg fs sub suffix).1 p = fs p := by
  unfold FileManager.write_csv
  dsimp only
  rw [fsWrite_other _ _ _ h3, fsWrite_other _ _ _ h2, fsRemove_other _ _ h1,
    fsWrite_other _ _ _ h1]

lemma write_csv_snd (cfg : EnvConfig) (fs : FS) (sub suffix : String) :
    (FileManager.write_csv cfg fs sub suffix).2 = FileManager.file_path cfg sub suffix := rfl

namespace ServiceEntryRunner

lemma process_category_frame (cfg : EnvConfig) (due : Bool) (sub suffix : String)
    (df : DataFrame) (title window : String) (fs : FS) {p : String}
    (h1 : p ≠ FileManager.temp_path cfg sub suffix)
    (h2 : p ≠ FileManager.file_path cfg sub suffix)
    (h3 : p ≠ FileManager.done_marker cfg sub suffix) :
    (process_category cfg due sub suffix df title window fs).1 p = fs p := by
  unfold process_category
  split
  · exact write_csv_frame cfg fs sub suffix h1 h2 h3
  · rfl

lemma process_category_skip_after (cfg : EnvConfig) (sub suffix : String)
    (df : DataFrame) (title window : String) (fs : FS) :
    FileManager.should_skip cfg
      (process_category cfg true sub suffix df title window fs).1 sub suffix = true := by
  unfold process_category
  split
  · unfold FileManager.should_skip fsExists
    rw [write_csv_final]
    rfl
  · rename_i h
    simp only [Bool.true_and, Bool.not_eq_true', Bool.not_eq_false] at h
    exact h

lemma process_category_not_due (cfg : EnvConfig) (sub suffix : String)
    (df : DataFrame) (title window : String) (fs : FS) :
    process_category cfg false sub suffix df title window fs = (fs, [], []) := by
  unfold process_category
  simp

lemma process_category_skip (cfg : EnvConfig) (due : Bool) (sub suffix : String)
    (df : DataFrame) (title window : String) (fs : FS)
    (h : FileManager.should_skip cfg fs sub suffix = true) :
    process_category cfg due sub suffix df title window fs = (fs, [], []) := by
  unfold process_category
  simp [h]

end ServiceEntryRunner

lemma monday_2025_09_01 : Date.weekday ⟨2025, 9, 1⟩ = 0 := by decide

lemma monday_2025_12_01 : Date.weekday ⟨2025, 12, 1⟩ = 0 := by decide

/-- C5: if the lock marker file already exists when the orchestrator
starts, run exits immediately as a no-op: the returned state is the input
state unchanged (so no output file, done marker, or lock file is written
or removed and no email is sent), no database connection is attempted,
and no attachment or section is produced. -/
theorem run_locked_is_noop (cfg : EnvConfig) (dbOk : Bool) (dfW dfM : DataFrame)
    (s : SysState) (h : fsExists s.fs cfg.lock_file = true) :
    ServiceEntryRunner.run cfg dbOk dfW dfM s = (⟨.lockedNoop, false, [], []⟩, s) := by
  unfold ServiceEntryRunner.run
  simp [h]

/-- Witness for C5 at a concrete locked state. -/
theorem run_locked_is_noop_witness :
    fsExists (sLocked cfgEx).fs cfgEx.lock_file = true ∧
    ServiceEntryRunner.run cfgEx true dfEx dfEx (sLocked cfgEx) =
      (⟨.lockedNoop, false, [], []⟩, sLocked cfgEx) :=
  ⟨by decide, run_locked_is_noop cfgEx true dfEx dfEx (sLocked cfgEx) (by decide)⟩

/-- C6: what_is_due returns (true, true) exactly on a Monday that is the
1st of its month, (true, false) exactly on a Monday that is not the 1st,
(false, true) exactly on a 1st that is not a Monday, and (false, false)
otherwise. -/
theorem what_is_due_cases (d : Date) :
    (ServiceEntryRunner.what_is_due d = (true, true) ↔ d.weekday = 0 ∧ d.day = 1) ∧
    (ServiceEntryRunner.what_is_due d = (true, false) ↔ d.weekday = 0 ∧ d.day ≠ 1) ∧
    (ServiceEntryRunner.what_is_due d = (false, true) ↔ d.weekday ≠ 0 ∧ d.day = 1) ∧
    (ServiceEntryRunner.what_is_due d = (false, false) ↔ d.weekday ≠ 0 ∧ d.day ≠ 1) := by
  unfold ServiceEntryRunner.what_is_due
  simp only [Prod.mk.injEq, beq_iff_eq, beq_eq_false_iff_ne]
  constructor
  · constructor <;> intro hh <;> simp_all
  constructor
  · constructor <;> intro hh <;> simp_all
  constructor
  · constructor <;> intro hh <;> simp_all
  · constructor <;> intro hh <;> simp_all

/-- C9: compute_dates fails exactly on mode strings that are not, up to
letter case, one of DAILY, WEEKLY, MONTHLY, MONTHLY_MTD; and its result
depends on the mode string only through upper-casing, so any case variant
of a recognized mode yields the same window as the canonical upper-case
spelling. -/
theorem compute_dates_mode_handling :
    (∀ (mode : String) (now : DateTime),
      reformatting_test.compute_dates mode now = none ↔
        (strUpper mode ≠ "DAILY" ∧ strUpper mode ≠ "WEEKLY" ∧
         strUpper mode ≠ "MONTHLY" ∧ strUpper mode ≠ "MONTHLY_MTD")) ∧
    (∀ (mode canonical : String) (now : DateTime),
      strUpper mode = strUpper canonical →
      reformatting_test.compute_dates mode now =
        reformatting_test.compute_dates canonical now) ∧
    (∀ (mode : String) (now : DateTime),
      datetest.compute_dates mode now = none ↔
        (strUpper mode ≠ "DAILY" ∧ strUpper mode ≠ "WEEKLY" ∧
         strUpper mode ≠ "MONTHLY")) ∧
    (∀ (mode canonical : String) (now : DateTime),
      strUpper mode = strUpper canonical →
      datetest.compute_dates mode now = datetest.compute_dates canonical now) := by
  refine ⟨?_, ?_, ?_, ?_⟩
  · intro mode now
    unfold reformatting_test.compute_dates
    dsimp only
    split_ifs with c1 c2 c3 c4 <;> simp_all
  · intro mode canonical now h
    unfold reformatting_test.compute_dates
    rw [h]
  · intro mode now
    unfold datetest.compute_dates
    dsimp only
    split_ifs with c1 c2 c3 <;> simp_all
  · intro mode canonical now h
    unfold datetest.compute_dates
    rw [h]

/-- Witness for C9: the lower-case variant "Daily" computes the same
window as the canonical "DAILY", and a garbage mode yields the error. -/
theorem compute_dates_mode_handling_witness :
    reformatting_test.compute_dates "Daily" ⟨⟨2025, 3, 15⟩, 0⟩ =
      reformatting_test.compute_dates "DAILY" ⟨⟨2025, 3, 15⟩, 0⟩ :=
  compute_dates_mode_handling.2.1 "Daily" "DAILY" ⟨⟨2025, 3, 15⟩, 0⟩ (by decide)

lemma pred_first_of_month (d : Date) (h1 : 1 ≤ d.month) :
    Date.pred ⟨d.year, d.month, 1⟩ =
      (if d.month = 1 then (⟨d.year - 1, 12, 31⟩ : Date)
       else ⟨d.year, d.month - 1, daysInMonth d.year (d.month - 1)⟩) := by
  by_cases hm : d.month = 1
  · rw [Date.pred_eq_else _ (by simp) (by simp [hm]), if_pos hm]
  · rw [Date.pred_eq_of_month _ (by simp) (by simp; omega), if_neg hm]

/-- C4: for every valid reference date, the MONTHLY window computed by
compute_dates (both the reformatting_test.py and the datetest.py version)
is the full prior calendar month at midnight: start is the first of the
preceding month and end is the first of the reference date's month,
regardless of the reference date's day-of-month. -/
theorem compute_dates_monthly_prior_month (d : Date) (secs : Nat) (hv : ValidDate d) :
    reformatting_test.compute_dates "MONTHLY" ⟨d, secs⟩ =
      some (⟨priorMonthFirst d, 0⟩, ⟨⟨d.year, d.month, 1⟩, 0⟩) ∧
    datetest.compute_dates "MONTHLY" ⟨d, secs⟩ =
      some (⟨priorMonthFirst d, 0⟩, ⟨⟨d.year, d.month, 1⟩, 0⟩) := by
  obtain ⟨h1, h2, h3, h4⟩ := hv
  have key : DateTime.subDays ⟨⟨d.year, d.month, 1⟩, 0⟩ 1 =
      ⟨Date.pred ⟨d.year, d.month, 1⟩, 0⟩ := rfl
  constructor
  · unfold reformatting_test.compute_dates
    dsimp only
    rw [if_neg (by decide), if_neg (by decide), if_pos (by decide), key,
      pred_first_of_month d h1]
    by_cases hm : d.month = 1
    · simp [priorMonthFirst, hm]
    · simp [priorMonthFirst, hm]
  · unfold datetest.compute_dates
    dsimp only
    rw [if_neg (by decide), if_neg (by decide), if_pos (by decide), key,
      pred_first_of_month d h1]
    by_cases hm : d.month = 1
    · simp [priorMonthFirst, hm]
    · simp [priorMonthFirst, hm]

/-- Witness for C4 at the spec's example: 2025-03-15 yields the window
from 2025-02-01 to 2025-03-01. -/
theorem compute_dates_monthly_prior_month_witness :
    ValidDate ⟨2025, 3, 15⟩ ∧
    reformatting_test.compute_dates "MONTHLY" ⟨⟨2025, 3, 15⟩, 0⟩ =
      some (⟨⟨2025, 2, 1⟩, 0⟩, ⟨⟨2025, 3, 1⟩, 0⟩) := by
  refine ⟨by decide, ?_⟩
  rw [(compute_dates_monthly_prior_month ⟨2025, 3, 15⟩ 0 (by decide)).1]
  decide

/-- C3: write_csv targets a temp path distinct from the final path and
renames it onto the final path, so in every state write_csv passes
through the final path is never partially written, and in every state
before the rename (where a crash would leave only the temp file, the
final CSV and done marker being absent initially) should_skip is false,
so the category is retried on the next run. -/
theorem write_csv_atomic (cfg : EnvConfig) (sub suffix : String) (fs : FS)
    (hf : fs (FileManager.file_path cfg sub suffix) = none)
    (hm : fs (FileManager.done_marker cfg sub suffix) = none) :
    FileManager.temp_path cfg sub suffix ≠ FileManager.file_path cfg sub suffix ∧
    (∀ s ∈ FileManager.write_csv_trace cfg fs sub suffix,
      s (FileManager.file_path cfg sub suffix) ≠ some .incomplete) ∧
    (∀ s ∈ (FileManager.write_csv_trace cfg fs sub suffix).take 3,
      FileManager.should_skip cfg s sub suffix = false) := by
  have htf := temp_ne_file cfg sub suffix
  have htm := temp_ne_marker cfg sub suffix
  have hmf := marker_ne_file cfg sub suffix
  refine ⟨htf, ?_, ?_⟩
  · intro s hs
    unfold FileManager.write_csv_trace at hs
    dsimp only at hs
    simp only [List.mem_cons, List.not_mem_nil, or_false] at hs
    rcases hs with h | h | h | h | h <;> subst h
    · rw [hf]
      simp
    · rw [fsWrite_other _ _ _ (Ne.symm htf), hf]
      simp
    · rw [fsWrite_other _ _ _ (Ne.symm htf), hf]
      simp
    · rw [fsWrite_same]
      simp
    · rw [fsWrite_other _ _ _ (Ne.symm hmf), fsWrite_same]
      simp
  · intro s hs
    unfold FileManager.write_csv_trace at hs
    dsimp only at hs
    simp only [List.take, List.mem_cons, List.not_mem_nil, or_false] at hs
    have hskip : FileManager.should_skip cfg fs sub suffix = false := by
      unfold FileManager.should_skip fsExists
      rw [hf, hm]
      rfl
    rcases hs with h | h | h <;> subst h
    · exact hskip
    · rw [FileManager.should_skip, fsExists, fsExists,
        fsWrite_other _ _ _ (Ne.symm htf), fsWrite_other _ _ _ htm.symm, hf, hm]
      rfl
    · rw [FileManager.should_skip, fsExists, fsExists,
        fsWrite_other _ _ _ (Ne.symm htf), fsWrite_other _ _ _ htm.symm, hf, hm]
      rfl

/-- Witness for C3 starting from the empty filesystem. -/
theorem write_csv_atomic_witness :
    fsEmpty (FileManager.file_path cfgEx "weekly" "WEEKLY") = none ∧
    (∀ s ∈ (FileManager.write_csv_trace cfgEx fsEmpty "weekly" "WEEKLY").take 3,
      FileManager.should_skip cfgEx s "weekly" "WEEKLY" = false) :=
  ⟨rfl, (write_csv_atomic cfgEx "weekly" "WEEKLY" fsEmpty rfl rfl).2.2⟩

/-- C10: write_csv creates the done marker only after the final CSV has
been renamed into place: in every state write_csv passes through, if the
done marker exists (it did not exist initially) then the final CSV is
present and complete; the marker never exists while only the temp file
does. -/
theorem done_marker_after_rename (cfg : EnvConfig) (sub suffix : String) (fs : FS)
    (hm : fs (FileManager.done_marker cfg sub suffix) = none) :
    ∀ s ∈ FileManager.write_csv_trace cfg fs sub suffix,
      s (FileManager.done_marker cfg sub suffix) ≠ none →
      s (FileManager.file_path cfg sub suffix) = some .complete := by
  have htm := temp_ne_marker cfg sub suffix
  have hmf := marker_ne_file cfg sub suffix
  intro s hs hmark
  unfold FileManager.write_csv_trace at hs
  dsimp only at hs
  simp only [List.mem_cons, List.not_mem_nil, or_false] at hs
  rcases hs with h | h | h | h | h <;> subst h
  · exact absurd hm hmark
  · rw [fsWrite_other _ _ _ htm.symm, hm] at hmark
    exact absurd rfl hmark
  · rw [fsWrite_other _ _ _ htm.symm, hm] at hmark
    exact absurd rfl hmark
  · rw [fsWrite_other _ _ _ hmf, fsRemove_other _ _ htm.symm,
      fsWrite_other _ _ _ htm.symm, hm] at hmark
    exact absurd rfl hmark
  · rw [fsWrite_other _ _ _ (Ne.symm hmf), fsWrite_same]

/-- Witness for C10 starting from the empty filesystem. -/
theorem done_marker_after_rename_witness :
    fsEmpty (FileManager.done_marker cfgEx "weekly" "WEEKLY") = none ∧
    (∀ s ∈ FileManager.write_csv_trace cfgEx fsEmpty "weekly" "WEEKLY",
      s (FileManager.done_marker cfgEx "weekly" "WEEKLY") ≠ none →
      s (FileManager.file_path cfgEx "weekly" "WEEKLY") = some .complete) :=
  ⟨rfl, done_marker_after_rename cfgEx "weekly" "WEEKLY" fsEmpty rfl⟩

lemma wfile_ne_mtemp (cfg : EnvConfig) :
    FileManager.file_path cfg "weekly" "WEEKLY" ≠ FileManager.temp_path cfg "monthly" "MONTHLY" := by
  rw [FileManager.file_path, FileManager.temp_path]
  exact weekly_ne_monthly_path cfg _ _

lemma wfile_ne_mfile (cfg : EnvConfig) :
    FileManager.file_path cfg "weekly" "WEEKLY" ≠ FileManager.file_path cfg "monthly" "MONTHLY" := by
  rw [FileManager.file_path, FileManager.file_path]
  exact weekly_ne_monthly_path cfg _ _

lemma wfile_ne_mmark (cfg : EnvConfig) :
    FileManager.file_path cfg "weekly" "WEEKLY" ≠ FileManager.done_marker cfg "monthly" "MONTHLY" := by
  rw [FileManager.file_path, FileManager.done_marker]
  exact weekly_ne_monthly_path cfg _ _

lemma wmark_ne_mtemp (cfg : EnvConfig) :
    FileManager.done_marker cfg "weekly" "WEEKLY" ≠ FileManager.temp_path cfg "monthly" "MONTHLY" := by
  rw [FileManager.done_marker, FileManager.temp_path]
  exact weekly_ne_monthly_path cfg _ _

lemma wmark_ne_mfile (cfg : EnvConfig) :
    FileManager.done_marker cfg "weekly" "WEEKLY" ≠ FileManager.file_path cfg "monthly" "MONTHLY" := by
  rw [FileManager.done_marker, FileManager.file_path]
  exact weekly_ne_monthly_path cfg _ _

lemma wmark_ne_mmark (cfg : EnvConfig) :
    FileManager.done_marker cfg "weekly" "WEEKLY" ≠ FileManager.done_marker cfg "monthly" "MONTHLY" := by
  rw [FileManager.done_marker, FileManager.done_marker]
  exact weekly_ne_monthly_path cfg _ _

lemma mfile_ne_wtemp (cfg : EnvConfig) :
    FileManager.file_path cfg "monthly" "MONTHLY" ≠ FileManager.temp_path cfg "weekly" "WEEKLY" := by
  rw [FileManager.file_path, FileManager.temp_path]
  exact Ne.symm (weekly_ne_monthly_path cfg _ _)

lemma mfile_ne_wfile (cfg : EnvConfig) :
    FileManager.file_path cfg "monthly" "MONTHLY" ≠ FileManager.file_path cfg "weekly" "WEEKLY" := by
  rw [FileManager.file_path, FileManager.file_path]
  exact Ne.symm (weekly_ne_monthly_path cfg _ _)

lemma mfile_ne_wmark (cfg : EnvConfig) :
    FileManager.file_path cfg "monthly" "MONTHLY" ≠ FileManager.done_marker cfg "weekly" "WEEKLY" := by
  rw [FileManager.file_path, FileManager.done_marker]
  exact Ne.symm (weekly_ne_monthly_path cfg _ _)

lemma mmark_ne_wtemp (cfg : EnvConfig) :
    FileManager.done_marker cfg "monthly" "MONTHLY" ≠ FileManager.temp_path cfg "weekly" "WEEKLY" := by
  rw [FileManager.done_marker, FileManager.temp_path]
  exact Ne.symm (weekly_ne_monthly_path cfg _ _)

lemma mmark_ne_wfile (cfg : EnvConfig) :
    FileManager.done_marker cfg "monthly" "MONTHLY" ≠ FileManager.file_path cfg "weekly" "WEEKLY" := by
  rw [FileManager.done_marker, FileManager.file_path]
  exact Ne.symm (weekly_ne_monthly_path cfg _ _)

lemma mmark_ne_wmark (cfg : EnvConfig) :
    FileManager.done_marker cfg "monthly" "MONTHLY" ≠ FileManager.done_marker cfg "weekly" "WEEKLY" := by
  rw [FileManager.done_marker, FileManager.done_marker]
  exact Ne.symm (weekly_ne_monthly_path cfg _ _)

namespace ServiceEntryRunner

lemma process_category_go (cfg : EnvConfig) (sub suffix : String)
    (df : DataFrame) (title window : String) (fs : FS)
    (h : FileManager.should_skip cfg fs sub suffix = false) :
    process_category cfg true sub suffix df title window fs =
      ((FileManager.write_csv cfg fs sub suffix).1,
       [(FileManager.write_csv cfg fs sub suffix).2], [⟨title, window, df.rows⟩]) := by
  unfold process_category
  simp [h]

lemma should_skip_after_write (cfg : EnvConfig) (fs : FS) (sub suffix : String) :
    FileManager.should_skip cfg (FileManager.write_csv cfg fs sub suffix).1 sub suffix = true := by
  unfold FileManager.should_skip fsExists
  rw [write_csv_final]
  rfl

lemma sk_weekly_after_write_monthly (cfg : EnvConfig) (fs : FS) :
    FileManager.should_skip cfg
      (FileManager.write_csv cfg fs "monthly" "MONTHLY").1 "weekly" "WEEKLY" =
    FileManager.should_skip cfg fs "weekly" "WEEKLY" :=
  should_skip_congr cfg "weekly" "WEEKLY"
    (write_csv_frame cfg fs "monthly" "MONTHLY"
      (wfile_ne_mtemp cfg) (wfile_ne_mfile cfg) (wfile_ne_mmark cfg))
    (write_csv_frame cfg fs "monthly" "MONTHLY"
      (wmark_ne_mtemp cfg) (wmark_ne_mfile cfg) (wmark_ne_mmark cfg))

lemma process_category_lock (cfg : EnvConfig) (due : Bool) (sub suffix : String)
    (df : DataFrame) (title window : String) (fs : FS) :
    (process_category cfg due sub suffix df title window fs).1 cfg.lock_file =
      fs cfg.lock_file :=
  process_category_frame cfg due sub suffix df title window fs
    (lock_ne_temp cfg sub suffix) (lock_ne_file cfg sub suffix) (lock_ne_marker cfg sub suffix)

lemma sk_write_lock (cfg : EnvConfig) (fs : FS) (v : FileData) (sub suffix : String) :
    FileManager.should_skip cfg (fsWrite fs cfg.lock_file v) sub suffix =
      FileManager.should_skip cfg fs sub suffix :=
  should_skip_congr cfg sub suffix
    (fsWrite_other _ _ _ (Ne.symm (lock_ne_file cfg sub suffix)))
    (fsWrite_other _ _ _ (Ne.symm (lock_ne_marker cfg sub suffix)))

lemma sk_remove_lock (cfg : EnvConfig) (fs : FS) (sub suffix : String) :
    FileManager.should_skip cfg (fsRemove fs cfg.lock_file) sub suffix =
      FileManager.should_skip cfg fs sub suffix :=
  should_skip_congr cfg sub suffix
    (fsRemove_other _ _ (Ne.symm (lock_ne_file cfg sub suffix)))
    (fsRemove_other _ _ (Ne.symm (lock_ne_marker cfg sub suffix)))

lemma sk_weekly_after_monthly (cfg : EnvConfig) (due : Bool) (df : DataFrame)
    (title window : String) (fs : FS) :
    FileManager.should_skip cfg
      (process_category cfg due "monthly" "MONTHLY" df title window fs).1 "weekly" "WEEKLY" =
    FileManager.should_skip cfg fs "weekly" "WEEKLY" :=
  should_skip_congr cfg "weekly" "WEEKLY"
    (process_category_frame cfg due "monthly" "MONTHLY" df title window fs
      (wfile_ne_mtemp cfg) (wfile_ne_mfile cfg) (wfile_ne_mmark cfg))
    (process_category_frame cfg due "monthly" "MONTHLY" df title window fs
      (wmark_ne_mtemp cfg) (wmark_ne_mfile cfg) (wmark_ne_mmark cfg))

lemma sk_monthly_after_weekly (cfg : EnvConfig) (due : Bool) (df : DataFrame)
    (title window : String) (fs : FS) :
    FileManager.should_skip cfg
      (process_category cfg due "weekly" "WEEKLY" df title window fs).1 "monthly" "MONTHLY" =
    FileManager.should_skip cfg fs "monthly" "MONTHLY" :=
  should_skip_congr cfg "monthly" "MONTHLY"
    (process_category_frame cfg due "weekly" "WEEKLY" df title window fs
      (mfile_ne_wtemp cfg) (mfile_ne_wfile cfg) (mfile_ne_wmark cfg))
    (process_category_frame cfg due "weekly" "WEEKLY" df title window fs
      (mmark_ne_wtemp cfg) (mmark_ne_wfile cfg) (mmark_ne_wmark cfg))

end ServiceEntryRunner

namespace ServiceEntryRunner

lemma write_csv_lock (cfg : EnvConfig) (fs : FS) (sub suffix : String) :
    (FileManager.write_csv cfg fs sub suffix).1 cfg.lock_file = fs cfg.lock_file :=
  write_csv_frame cfg fs sub suffix (lock_ne_temp cfg sub suffix)
    (lock_ne_file cfg sub suffix) (lock_ne_marker cfg sub suffix)

lemma run_first_props (cfg : EnvConfig) (dfW dfM : DataFrame) (s0 : SysState)
    (h : s0.fs cfg.lock_file = none) :
    (run cfg true dfW dfM s0).2.fs cfg.lock_file = none ∧
    ((what_is_due cfg.today).1 = true →
      FileManager.should_skip cfg (run cfg true dfW dfM s0).2.fs "weekly" "WEEKLY" = true) ∧
    ((what_is_due cfg.today).2 = true →
      FileManager.should_skip cfg (run cfg true dfW dfM s0).2.fs "monthly" "MONTHLY" = true) ∧
    (run cfg true dfW dfM s0).2.emails.length ≤ s0.emails.length + 1 := by
  have hnex : ¬ (fsExists s0.fs cfg.lock_file = true) := by simp [fsExists, h]
  unfold run
  rw [if_neg hnex]
  dsimp only
  rcases hwd : what_is_due cfg.today with ⟨w, m⟩
  cases w <;> cases m <;> dsimp only
  · rw [if_pos (by decide)]
    refine ⟨by simp, by simp, by simp, by simp⟩
  · rw [if_neg (by decide), if_neg (by decide)]
    rw [process_category_not_due]
    dsimp only
    by_cases hms : FileManager.should_skip cfg (fsWrite s0.fs cfg.lock_file .complete)
        "monthly" "MONTHLY" = true
    · rw [process_category_skip _ _ _ _ _ _ _ _ hms]
      rw [if_pos (by simp)]
      refine ⟨by simp, by simp, ?_, by simp⟩
      intro _
      dsimp only
      rw [sk_remove_lock]
      exact hms
    · rw [Bool.not_eq_true] at hms
      rw [process_category_go _ _ _ _ _ _ _ hms]
      rw [if_neg (by simp)]
      have hlock : (FileManager.write_csv cfg (fsWrite s0.fs cfg.lock_file .complete)
          "monthly" "MONTHLY").1 cfg.lock_file = some .complete := by
        rw [write_csv_lock, fsWrite_same]
      rw [if_pos (by rw [fsExists, hlock]; rfl)]
      refine ⟨by simp, by simp, ?_, by simp⟩
      intro _
      dsimp only
      rw [sk_remove_lock]
      exact should_skip_after_write cfg _ "monthly" "MONTHLY"
  · rw [if_neg (by decide), if_neg (by decide)]
    by_cases hws : FileManager.should_skip cfg (fsWrite s0.fs cfg.lock_file .complete)
        "weekly" "WEEKLY" = true
    · rw [process_category_skip _ _ _ _ _ _ _ _ hws]
      dsimp only
      rw [process_category_not_due]
      dsimp only
      rw [if_pos (by simp)]
      refine ⟨by simp, ?_, by simp, by simp⟩
      intro _
      dsimp only
      rw [sk_remove_lock]
      exact hws
    · rw [Bool.not_eq_true] at hws
      rw [process_category_go _ _ _ _ _ _ _ hws]
      dsimp only
      rw [process_category_not_due]
      dsimp only
      rw [if_neg (by simp)]
      have hlock : (FileManager.write_csv cfg (fsWrite s0.fs cfg.lock_file .complete)
          "weekly" "WEEKLY").1 cfg.lock_file = some .complete := by
        rw [write_csv_lock, fsWrite_same]
      rw [if_pos (by rw [fsExists, hlock]; rfl)]
      refine ⟨by simp, ?_, by simp, by simp⟩
      intro _
      dsimp only
      rw [sk_remove_lock]
      exact should_skip_after_write cfg _ "weekly" "WEEKLY"
  · rw [if_neg (by decide), if_neg (by decide)]
    by_cases hws : FileManager.should_skip cfg (fsWrite s0.fs cfg.lock_file .complete)
        "weekly" "WEEKLY" = true
    · rw [process_category_skip _ _ _ _ _ _ _ _ hws]
      dsimp only
      by_cases hms : FileManager.should_skip cfg (fsWrite s0.fs cfg.lock_file .complete)
          "monthly" "MONTHLY" = true
      · rw [process_category_skip _ _ _ _ _ _ _ _ hms]
        rw [if_pos (by simp)]
        refine ⟨by simp, ?_, ?_, by simp⟩
        · intro _
          dsimp only
          rw [sk_remove_lock]
          exact hws
        · intro _
          dsimp only
          rw [sk_remove_lock]
          exact hms
      · rw [Bool.not_eq_true] at hms
        rw [process_category_go _ _ _ _ _ _ _ hms]
        rw [if_neg (by simp)]
        have hlock : (FileManager.write_csv cfg (fsWrite s0.fs cfg.lock_file .complete)
            "monthly" "MONTHLY").1 cfg.lock_file = some .complete := by
          rw [write_csv_lock, fsWrite_same]
        rw [if_pos (by rw [fsExists, hlock]; rfl)]
        refine ⟨by simp, ?_, ?_, by simp⟩
        · intro _
          dsimp only
          rw [sk_remove_lock, sk_weekly_after_write_monthly]
          exact hws
        · intro _
          dsimp only
          rw [sk_remove_lock]
          exact should_skip_after_write cfg _ "monthly" "MONTHLY"
    · rw [Bool.not_eq_true] at hws
      rw [process_category_go _ _ _ _ _ _ _ hws]
      dsimp only
      by_cases hms : FileManager.should_skip cfg
          (FileManager.write_csv cfg (fsWrite s0.fs cfg.lock_file .complete)
            "weekly" "WEEKLY").1 "monthly" "MONTHLY" = true
      · rw [process_category_skip _ _ _ _ _ _ _ _ hms]
        rw [if_neg (by simp)]
        have hlock : (FileManager.write_csv cfg (fsWrite s0.fs cfg.lock_file .complete)
            "weekly" "WEEKLY").1 cfg.lock_file = some .complete := by
          rw [write_csv_lock, fsWrite_same]
        rw [if_pos (by rw [fsExists, hlock]; rfl)]
        refine ⟨by simp, ?_, ?_, by simp⟩
        · intro _
          dsimp only
          rw [sk_remove_lock]
          exact should_skip_after_write cfg _ "weekly" "WEEKLY"
        · intro _
          dsimp only
          rw [sk_remove_lock]
          exact hms
      · rw [Bool.not_eq_true] at hms
        rw [process_category_go _ _ _ _ _ _ _ hms]
        rw [if_neg (by simp)]
        have hlock : (FileManager.write_csv cfg
            (FileManager.write_csv cfg (fsWrite s0.fs cfg.lock_file .complete)
              "weekly" "WEEKLY").1 "monthly" "MONTHLY").1 cfg.lock_file = some .complete := by
          rw [write_csv_lock, write_csv_lock, fsWrite_same]
        rw [if_pos (by rw [fsExists, hlock]; rfl)]
        refine ⟨by simp, ?_, ?_, by simp⟩
        · intro _
          dsimp only
          rw [sk_remove_lock, sk_weekly_after_write_monthly]
          exact should_skip_after_write cfg _ "weekly" "WEEKLY"
        · intro _
          dsimp only
          rw [sk_remove_lock]
          exact should_skip_after_write cfg _ "monthly" "MONTHLY"

end ServiceEntryRunner

namespace ServiceEntryRunner

lemma run_second_noop (cfg : EnvConfig) (dfW dfM : DataFrame) (s : SysState)
    (h : s.fs cfg.lock_file = none)
    (hw : (what_is_due cfg.today).1 = true →
      FileManager.should_skip cfg s.fs "weekly" "WEEKLY" = true)
    (hm : (what_is_due cfg.today).2 = true →
      FileManager.should_skip cfg s.fs "monthly" "MONTHLY" = true) :
    (run cfg true dfW dfM s).2.fs = s.fs ∧
    (run cfg true dfW dfM s).2.emails = s.emails ∧
    (run cfg true dfW dfM s).1.attachments = [] := by
  have hnex : ¬ (fsExists s.fs cfg.lock_file = true) := by simp [fsExists, h]
  have hcancel := fsRemove_fsWrite_cancel s.fs cfg.lock_file .complete h
  unfold run
  rw [if_neg hnex]
  dsimp only
  cases hW : (what_is_due cfg.today).1 <;> cases hM : (what_is_due cfg.today).2
  · rw [if_pos (by decide)]
    exact ⟨by dsimp only; rw [hcancel], rfl, rfl⟩
  · rw [if_neg (by decide), if_neg (by decide)]
    rw [process_category_not_due]
    dsimp only
    have hm' : FileManager.should_skip cfg (fsWrite s.fs cfg.lock_file .complete)
        "monthly" "MONTHLY" = true := by
      rw [sk_write_lock]
      exact hm hM
    rw [process_category_skip _ _ _ _ _ _ _ _ hm']
    rw [if_pos (by simp)]
    exact ⟨by dsimp only; rw [hcancel], rfl, rfl⟩
  · rw [if_neg (by decide), if_neg (by decide)]
    have hw' : FileManager.should_skip cfg (fsWrite s.fs cfg.lock_file .complete)
        "weekly" "WEEKLY" = true := by
      rw [sk_write_lock]
      exact hw hW
    rw [process_category_skip _ _ _ _ _ _ _ _ hw']
    dsimp only
    rw [process_category_not_due]
    dsimp only
    rw [if_pos (by simp)]
    exact ⟨by dsimp only; rw [hcancel], rfl, rfl⟩
  · rw [if_neg (by decide), if_neg (by decide)]
    have hw' : FileManager.should_skip cfg (fsWrite s.fs cfg.lock_file .complete)
        "weekly" "WEEKLY" = true := by
      rw [sk_write_lock]
      exact hw hW
    rw [process_category_skip _ _ _ _ _ _ _ _ hw']
    dsimp only
    have hm' : FileManager.should_skip cfg (fsWrite s.fs cfg.lock_file .complete)
        "monthly" "MONTHLY" = true := by
      rw [sk_write_lock]
      exact hm hM
    rw [process_category_skip _ _ _ _ _ _ _ _ hm']
    rw [if_pos (by simp)]
    exact ⟨by dsimp only; rw [hcancel], rfl, rfl⟩

end ServiceEntryRunner

/-- C2: running the orchestrator twice on the same calendar day with the
same due set is idempotent. Starting without a lock, the second run
changes neither the filesystem nor the sent-email list and produces zero
new attachments; the first run sends at most one email; and after the
first run the second run observes should_skip true for every due
category. -/
theorem run_idempotent (cfg : EnvConfig) (dfW dfM dfW2 dfM2 : DataFrame) (s0 : SysState)
    (h : s0.fs cfg.lock_file = none) :
    (ServiceEntryRunner.run cfg true dfW2 dfM2
        (ServiceEntryRunner.run cfg true dfW dfM s0).2).2.fs =
      (ServiceEntryRunner.run cfg true dfW dfM s0).2.fs ∧
    (ServiceEntryRunner.run cfg true dfW2 dfM2
        (ServiceEntryRunner.run cfg true dfW dfM s0).2).2.emails =
      (ServiceEntryRunner.run cfg true dfW dfM s0).2.emails ∧
    (ServiceEntryRunner.run cfg true dfW2 dfM2
        (ServiceEntryRunner.run cfg true dfW dfM s0).2).1.attachments = [] ∧
    (ServiceEntryRunner.run cfg true dfW dfM s0).2.emails.length ≤ s0.emails.length + 1 ∧
    ((ServiceEntryRunner.what_is_due cfg.today).1 = true →
      FileManager.should_skip cfg (ServiceEntryRunner.run cfg true dfW dfM s0).2.fs
        "weekly" "WEEKLY" = true) ∧
    ((ServiceEntryRunner.what_is_due cfg.today).2 = true →
      FileManager.should_skip cfg (ServiceEntryRunner.run cfg true dfW dfM s0).2.fs
        "monthly" "MONTHLY" = true) := by
  obtain ⟨hA, hB, hC, hD⟩ := ServiceEntryRunner.run_first_props cfg dfW dfM s0 h
  obtain ⟨e1, e2, e3⟩ := ServiceEntryRunner.run_second_noop cfg dfW2 dfM2 _ hA hB hC
  exact ⟨e1, e2, e3, hD, hB, hC⟩

/-- Witness for C2 from the clean state on 2025-12-01. -/
theorem run_idempotent_witness :
    sEmpty.fs cfgEx.lock_file = none ∧
    ((ServiceEntryRunner.run cfgEx true dfEx dfEx
        (ServiceEntryRunner.run cfgEx true dfEx dfEx sEmpty).2).2.fs =
      (ServiceEntryRunner.run cfgEx true dfEx dfEx sEmpty).2.fs ∧
    (ServiceEntryRunner.run cfgEx true dfEx dfEx
        (ServiceEntryRunner.run cfgEx true dfEx dfEx sEmpty).2).2.emails =
      (ServiceEntryRunner.run cfgEx true dfEx dfEx sEmpty).2.emails ∧
    (ServiceEntryRunner.run cfgEx true dfEx dfEx
        (ServiceEntryRunner.run cfgEx true dfEx dfEx sEmpty).2).1.attachments = [] ∧
    (ServiceEntryRunner.run cfgEx true dfEx dfEx sEmpty).2.emails.length ≤
      sEmpty.emails.length + 1 ∧
    ((ServiceEntryRunner.what_is_due cfgEx.today).1 = true →
      FileManager.should_skip cfgEx (ServiceEntryRunner.run cfgEx true dfEx dfEx sEmpty).2.fs
        "weekly" "WEEKLY" = true) ∧
    ((ServiceEntryRunner.what_is_due cfgEx.today).2 = true →
      FileManager.should_skip cfgEx (ServiceEntryRunner.run cfgEx true dfEx dfEx sEmpty).2.fs
        "monthly" "MONTHLY" = true)) :=
  ⟨rfl, run_idempotent cfgEx dfEx dfEx dfEx dfEx sEmpty rfl⟩

/-- C1 (code-bug exhibit): on 2025-12-01 (weekly and monthly due) with no
lock present, a run whose database connection fails aborts with no report
sent, but leaves the lock file on disk, so the next scheduled run exits
as a locked no-op instead of proceeding. The source has no try/finally
around the body of ServiceEntryRunner.run, so the release step is skipped
on this exception path, contradicting the documented contract that the
lock is released unconditionally. -/
theorem run_conn_failure_keeps_lock :
    (ServiceEntryRunner.run cfgEx false dfEx dfEx sEmpty).1.outcome = .connFailed ∧
    (ServiceEntryRunner.run cfgEx false dfEx dfEx sEmpty).2.fs cfgEx.lock_file =
      some .complete ∧
    (ServiceEntryRunner.run cfgEx false dfEx dfEx sEmpty).2.emails = [] ∧
    (ServiceEntryRunner.run cfgEx true dfEx dfEx
        (ServiceEntryRunner.run cfgEx false dfEx dfEx sEmpty).2).1.outcome = .lockedNoop := by
  decide

lemma dateTimeLt_mk {a b : Date} (s1 s2 : Nat) (h : Date.lt a b) :
    DateTime.lt ⟨a, s1⟩ ⟨b, s2⟩ :=
  Or.inl h

/-- C7 counterexample: with year_start_month = 1 and today = 2025-01-01
(a legal run date: the 1st, so monthly is due), monthly_window yields
start = end = midnight 2025-01-01, so its window violates start < end. -/
theorem monthly_window_degenerate :
    ¬ DateTime.lt (ServiceEntryRunner.monthly_window ⟨"", ⟨2025, 1, 1⟩, 1⟩).1
      (ServiceEntryRunner.monthly_window ⟨"", ⟨2025, 1, 1⟩, 1⟩).2 := by
  decide

set_option maxHeartbeats 800000 in
/-- C7 amended: every window produced by compute_dates for a recognized
mode on a valid reference date satisfies start < end with both endpoints
at midnight, and so does the orchestrator's weekly_window; the
orchestrator's monthly_window has midnight endpoints and satisfies
start < end provided the year-start anchor (the first of the configured
year-start month in today's calendar year) precedes today, but not in
general. -/
theorem windows_start_lt_end :
    (∀ (mode : String) (now : DateTime) (w : DateTime × DateTime),
      ValidDate now.date → 1 ≤ now.date.year →
      reformatting_test.compute_dates mode now = some w →
      DateTime.lt w.1 w.2 ∧ w.1.secs = 0 ∧ w.2.secs = 0) ∧
    (∀ today : Date, ValidDate today → 1 ≤ today.year →
      DateTime.lt (ServiceEntryRunner.weekly_window today).1
        (ServiceEntryRunner.weekly_window today).2 ∧
      (ServiceEntryRunner.weekly_window today).1.secs = 0 ∧
      (ServiceEntryRunner.weekly_window today).2.secs = 0) ∧
    (∀ cfg : EnvConfig,
      (ServiceEntryRunner.monthly_window cfg).1.secs = 0 ∧
      (ServiceEntryRunner.monthly_window cfg).2.secs = 0 ∧
      (Date.lt ⟨cfg.today.year, cfg.year_start_month, 1⟩ cfg.today →
        DateTime.lt (ServiceEntryRunner.monthly_window cfg).1
          (ServiceEntryRunner.monthly_window cfg).2)) := by
  refine ⟨?_, ?_, ?_⟩
  · intro mode now w hv hy heq
    obtain ⟨h1, h2, h3, h4⟩ := hv
    unfold reformatting_test.compute_dates at heq
    dsimp only at heq
    split_ifs at heq with c1 c2 c3 c4
    · obtain rfl : w = _ := (Option.some.inj heq).symm
      exact ⟨Or.inl (Date.lt_succ now.date), rfl, rfl⟩
    · obtain rfl : w = _ := (Option.some.inj heq).symm
      have hsub : DateTime.subDays ⟨now.date, 0⟩ 7 = ⟨Date.predN 7 now.date, 0⟩ := rfl
      refine ⟨?_, rfl, rfl⟩
      rw [hsub]
      exact dateTimeLt_mk 0 0 (Date.subDays7_lt now.date ⟨h1, h2, h3, h4⟩ hy)
    · obtain rfl : w = _ := (Option.some.inj heq).symm
      refine ⟨Or.inl ?_, rfl, rfl⟩
      have hpred : (DateTime.subDays ⟨⟨now.date.year, now.date.month, 1⟩, 0⟩ 1).date =
          Date.pred ⟨now.date.year, now.date.month, 1⟩ := rfl
      dsimp only
      rw [hpred, pred_first_of_month now.date h1]
      by_cases hm : now.date.month = 1
      · rw [if_pos hm]
        unfold Date.lt
        dsimp only
        omega
      · rw [if_neg hm]
        unfold Date.lt
        dsimp only
        omega
    · obtain rfl : w = _ := (Option.some.inj heq).symm
      refine ⟨Or.inl ?_, rfl, rfl⟩
      dsimp only
      have hstep : Date.lt ⟨now.date.year, now.date.month, 1⟩ now.date ∨
          (⟨now.date.year, now.date.month, 1⟩ : Date) = now.date := by
        by_cases hd : now.date.day = 1
        · right
          cases hnow : now.date
          simp_all
        · left
          unfold Date.lt
          dsimp only
          omega
      rcases hstep with hlt | hq
      · exact Date.lt_trans hlt (Date.lt_succ now.date)
      · rw [hq]
        exact Date.lt_succ now.date
  · intro today hv hy
    have hsub : (ServiceEntryRunner.weekly_window today).1 = ⟨Date.predN 7 today, 0⟩ := rfl
    have hsub2 : (ServiceEntryRunner.weekly_window today).2 = ⟨today, 0⟩ := rfl
    refine ⟨?_, rfl, rfl⟩
    rw [hsub, hsub2]
    exact dateTimeLt_mk 0 0 (Date.subDays7_lt today hv hy)
  · intro cfg
    exact ⟨rfl, rfl, fun hlt => Or.inl hlt⟩

/-- Witness for C7 at the WEEKLY mode on 2025-03-15: the window runs from
2025-03-08 to 2025-03-15, both at midnight. -/
theorem windows_start_lt_end_witness :
    ValidDate ⟨2025, 3, 15⟩ ∧
    (DateTime.lt ((⟨⟨2025, 3, 8⟩, 0⟩, ⟨⟨2025, 3, 15⟩, 0⟩) :
        DateTime × DateTime).1 ((⟨⟨2025, 3, 8⟩, 0⟩, ⟨⟨2025, 3, 15⟩, 0⟩) :
        DateTime × DateTime).2 ∧
      ((⟨⟨2025, 3, 8⟩, 0⟩, ⟨⟨2025, 3, 15⟩, 0⟩) : DateTime × DateTime).1.secs = 0 ∧
      ((⟨⟨2025, 3, 8⟩, 0⟩, ⟨⟨2025, 3, 15⟩, 0⟩) : DateTime × DateTime).2.secs = 0) :=
  ⟨by decide, windows_start_lt_end.1 "WEEKLY" ⟨⟨2025, 3, 15⟩, 0⟩
    (⟨⟨2025, 3, 8⟩, 0⟩, ⟨⟨2025, 3, 15⟩, 0⟩) (by decide) (by decide) (by decide)⟩

lemma sk_monthly_after_write_weekly (cfg : EnvConfig) (fs : FS) :
    FileManager.should_skip cfg
      (FileManager.write_csv cfg fs "weekly" "WEEKLY").1 "monthly" "MONTHLY" =
    FileManager.should_skip cfg fs "monthly" "MONTHLY" :=
  should_skip_congr cfg "monthly" "MONTHLY"
    (write_csv_frame cfg fs "weekly" "WEEKLY"
      (mfile_ne_wtemp cfg) (mfile_ne_wfile cfg) (mfile_ne_wmark cfg))
    (write_csv_frame cfg fs "weekly" "WEEKLY"
      (mmark_ne_wtemp cfg) (mmark_ne_wfile cfg) (mmark_ne_wmark cfg))

/-- C8 counterexample: on 2025-12-01 (both categories due) with the
weekly category already recorded done, the run produces exactly one
artifact (monthly only), yet the subject line of the email it sends says
"Weekly & Monthly": the subject tracks the due flags, not the categories
that produced an artifact in this run. -/
theorem run_subject_counterexample :
    (ServiceEntryRunner.run cfgEx true dfEx dfEx
        ⟨fsWeeklyDone cfgEx, []⟩).1.attachments.length = 1 ∧
    ((ServiceEntryRunner.run cfgEx true dfEx dfEx
        ⟨fsWeeklyDone cfgEx, []⟩).2.emails.map EmailMsg.subject) =
      ["Service Entry Sheet Report — Weekly & Monthly"] := by
  decide

/-- C8 amended: the subject of every email sent by a run reflects which
categories are due that day (Weekly & Monthly when both are due, Weekly
for weekly-only, Monthly for monthly-only), not which categories produced
an artifact in that run; in particular on a reference date that is both a
Monday and the 1st with nothing produced yet, two artifacts and two
sections are produced and one email is sent whose subject contains
"Weekly & Monthly". -/
theorem run_subject_reflects_due :
    (∀ (cfg : EnvConfig) (dbOk : Bool) (dfW dfM : DataFrame) (s0 : SysState)
        (msg : EmailMsg),
      msg ∈ (ServiceEntryRunner.run cfg dbOk dfW dfM s0).2.emails → msg ∉ s0.emails →
      msg.subject = "Service Entry Sheet Report" ++
        (if (ServiceEntryRunner.what_is_due cfg.today).1 &&
            (ServiceEntryRunner.what_is_due cfg.today).2 then " — Weekly & Monthly"
         else if (ServiceEntryRunner.what_is_due cfg.today).1 then " — Weekly"
         else if (ServiceEntryRunner.what_is_due cfg.today).2 then " — Monthly"
         else "")) ∧
    (∀ (cfg : EnvConfig) (dfW dfM : DataFrame) (s0 : SysState),
      s0.fs cfg.lock_file = none →
      ServiceEntryRunner.what_is_due cfg.today = (true, true) →
      s0.fs (FileManager.file_path cfg "weekly" "WEEKLY") = none →
      s0.fs (FileManager.done_marker cfg "weekly" "WEEKLY") = none →
      s0.fs (FileManager.file_path cfg "monthly" "MONTHLY") = none →
      s0.fs (FileManager.done_marker cfg "monthly" "MONTHLY") = none →
      ∃ msg : EmailMsg,
        (ServiceEntryRunner.run cfg true dfW dfM s0).2.emails = s0.emails ++ [msg] ∧
        (ServiceEntryRunner.run cfg true dfW dfM s0).1.outcome = .sentReport ∧
        (ServiceEntryRunner.run cfg true dfW dfM s0).1.attachments.length = 2 ∧
        (ServiceEntryRunner.run cfg true dfW dfM s0).1.sections.length = 2 ∧
        msg.subject = "Service Entry Sheet Report — Weekly & Monthly" ∧
        ∃ a b : String, msg.subject = a ++ "Weekly & Monthly" ++ b) := by
  constructor
  · intro cfg dbOk dfW dfM s0 msg hmem hnot
    unfold ServiceEntryRunner.run at hmem
    dsimp only at hmem
    set subj := "Service Entry Sheet Report" ++
      (if (ServiceEntryRunner.what_is_due cfg.today).1 &&
          (ServiceEntryRunner.what_is_due cfg.today).2 then " — Weekly & Monthly"
       else if (ServiceEntryRunner.what_is_due cfg.today).1 then " — Weekly"
       else if (ServiceEntryRunner.what_is_due cfg.today).2 then " — Monthly"
       else "") with hsubj
    by_cases hex : fsExists s0.fs cfg.lock_file = true
    · rw [if_pos hex] at hmem
      exact absurd hmem hnot
    · rw [if_neg hex] at hmem
      by_cases hdue : (!(ServiceEntryRunner.what_is_due cfg.today).1 &&
          !(ServiceEntryRunner.what_is_due cfg.today).2) = true
      · rw [if_pos hdue] at hmem
        exact absurd hmem hnot
      · rw [if_neg hdue] at hmem
        by_cases hdb : (!dbOk) = true
        · rw [if_pos hdb] at hmem
          exact absurd hmem hnot
        · rw [if_neg hdb] at hmem
          split_ifs at hmem with hatt hfse
          · exact absurd hmem hnot
          · rcases List.mem_append.mp hmem with hin | hin
            · exact absurd hin hnot
            · rw [List.mem_singleton] at hin
              subst hin
              rfl
          · rcases List.mem_append.mp hmem with hin | hin
            · exact absurd hin hnot
            · rw [List.mem_singleton] at hin
              subst hin
              rfl
  · intro cfg dfW dfM s0 hlock hwd hwf hwm hmf hmm
    have hnex : ¬ (fsExists s0.fs cfg.lock_file = true) := by simp [fsExists, hlock]
    have hws0 : FileManager.should_skip cfg s0.fs "weekly" "WEEKLY" = false := by
      unfold FileManager.should_skip fsExists
      rw [hwf, hwm]
      rfl
    have hms0 : FileManager.should_skip cfg s0.fs "monthly" "MONTHLY" = false := by
      unfold FileManager.should_skip fsExists
      rw [hmf, hmm]
      rfl
    have hws' : FileManager.should_skip cfg (fsWrite s0.fs cfg.lock_file .complete)
        "weekly" "WEEKLY" = false := by
      rw [ServiceEntryRunner.sk_write_lock]
      exact hws0
    have hms' : FileManager.should_skip cfg
        (FileManager.write_csv cfg (fsWrite s0.fs cfg.lock_file .complete)
          "weekly" "WEEKLY").1 "monthly" "MONTHLY" = false := by
      rw [sk_monthly_after_write_weekly, ServiceEntryRunner.sk_write_lock]
      exact hms0
    unfold ServiceEntryRunner.run
    rw [if_neg hnex]
    dsimp only
    rw [hwd]
    dsimp only
    rw [if_neg (by decide)]
    rw [if_neg (by decide)]
    rw [ServiceEntryRunner.process_category_go _ _ _ _ _ _ _ hws']
    dsimp only
    rw [ServiceEntryRunner.process_category_go _ _ _ _ _ _ _ hms']
    rw [if_neg (by simp)]
    exact ⟨_, rfl, rfl, rfl, rfl, rfl, "Service Entry Sheet Report — ", "", rfl⟩

/-- Witness for C8 from the clean state on 2025-12-01. -/
theorem run_subject_reflects_due_witness :
    ServiceEntryRunner.what_is_due cfgEx.today = (true, true) ∧
    (∃ msg : EmailMsg,
      (ServiceEntryRunner.run cfgEx true dfEx dfEx sEmpty).2.emails = sEmpty.emails ++ [msg] ∧
      (ServiceEntryRunner.run cfgEx true dfEx dfEx sEmpty).1.outcome = .sentReport ∧
      (ServiceEntryRunner.run cfgEx true dfEx dfEx sEmpty).1.attachments.length = 2 ∧
      (ServiceEntryRunner.run cfgEx true dfEx dfEx sEmpty).1.sections.length = 2 ∧
      msg.subject = "Service Entry Sheet Report — Weekly & Monthly" ∧
      ∃ a b : String, msg.subject = a ++ "Weekly & Monthly" ++ b) :=
  ⟨by decide, run_subject_reflects_due.2 cfgEx dfEx dfEx sEmpty rfl (by decide)
    rfl rfl rfl rfl⟩
